import Mathlib

/-!
# Task manager API (`api/app.js`): guards, login and task routes

A shallow embedding of the Express application in `api/app.js`.

* Promises are embedded as `Except JsValue α`: `.ok a` is a promise resolved with `a`,
  `.error e` is a promise rejected with `e`.
* A middleware `(req, res, next) => ...` is embedded as a function from the request and the
  response it receives to an `Outcome`: the request and response as it leaves them and whether it
  called `next()`.
* The `User` model (`./db/models/user.model`) and `jsonwebtoken` are not part of `app.js`; the
  functions of them that `app.js` calls are fields of `Env`.
* The response methods are those of Express 4; in particular `res.send` given a number alone
  takes it as the status code.
-/

namespace TaskManager

/-! ## Values -/

/-- JavaScript values, as far as `app.js` builds or forwards them. -/
inductive JsValue where
  | undefined
  | null
  | bool (b : Bool)
  | num (n : Int)
  | str (s : String)
  | obj (fields : List (String × JsValue))

/-- The object literal `{ 'error': msg }`. -/
def errorObject (msg : String) : JsValue :=
  JsValue.obj [("error", JsValue.str msg)]

/-- The test `typeof v === 'number'`. -/
def JsValue.isNumber : JsValue → Bool
  | JsValue.num _ => true
  | _ => false

/-- Whether a value is an object with the single property `error` holding a string. -/
def JsValue.isErrorObject : JsValue → Bool
  | JsValue.obj [(k, JsValue.str _)] => k == "error"
  | _ => false

/-- One entry of `user.sessions`. -/
structure Session where
  token : String
  expiresAt : Nat
  deriving DecidableEq, Repr

/-- A user document, with the fields `app.js` reads. -/
structure User where
  _id : String
  sessions : List Session
  deriving DecidableEq, Repr

/-- The request: its headers, its parsed JSON body, its route parameters and the three properties
the guards write. A property that was never written reads as `undefined`, which is `none`. -/
structure Req where
  headers : List (String × String)
  body : List (String × JsValue)
  params : List (String × String)
  user_id : Option String
  userObject : Option User
  refreshToken : Option String

/-- The call `req.header(name)`: the header value, or `undefined`. -/
def Req.header (req : Req) (name : String) : Option String :=
  req.headers.lookup name

/-- A list document, with the fields `app.js` reads and writes. -/
structure ListDoc where
  _id : String
  title : String
  _userId : String
  deriving DecidableEq, Repr

/-- A task document, with the fields `app.js` reads and writes. -/
structure TaskDoc where
  _id : String
  title : String
  _listId : String
  deriving DecidableEq, Repr

/-- The two collections of the document store that the list and task routes use. -/
structure Store where
  lists : List ListDoc
  tasks : List TaskDoc
  deriving DecidableEq, Repr

/-- The body of a response: the value or document `res.send` serialises, or the status message
of a status code (`statuses[code]`, as in `Not Found` for 404). -/
inductive Body where
  | json (v : JsValue)
  | statusMessage (code : Int)
  | userDoc (u : User)
  | listDocs (ls : List ListDoc)
  | taskDocs (ts : List TaskDoc)
  | taskDoc (t : Option TaskDoc)

/-- The response: status code, the headers set by handlers, and the body once it is sent. -/
structure Res where
  statusCode : Int
  headers : List (String × String)
  body : Option Body

/-- The call `res.status(code)`. -/
def Res.status (res : Res) (code : Int) : Res :=
  { res with statusCode := code }

/-- The call `res.header(name, value)`. -/
def Res.header (res : Res) (name value : String) : Res :=
  { res with headers := (name, value) :: res.headers.filter (fun h => h.1 != name) }

/-- The call `res.send(b)` of Express 4. A number given alone is taken as the status code: the
status code becomes that number and the body its status message. Every other argument is the
body and the status code stays as it is. -/
def Res.send (res : Res) : Body → Res
  | Body.json (JsValue.num n) => { res with statusCode := n, body := some (Body.statusMessage n) }
  | b => { res with body := some b }

/-- The call `res.sendStatus(404)`: the status with its reason phrase as the body. -/
def Res.sendStatus404 (res : Res) : Res :=
  (res.status 404).send (Body.json (JsValue.str "Not Found"))

/-- The error `jwt.verify` reports: always an `Error` object of jsonwebtoken
(`JsonWebTokenError`, `TokenExpiredError`, `NotBeforeError`), with its name and message. -/
structure JwtError where
  name : String
  message : String

/-- The error of `jwt.verify` as the value handed to `res.send`. -/
def JwtError.toJs (err : JwtError) : JsValue :=
  JsValue.obj [("name", JsValue.str err.name), ("message", JsValue.str err.message)]

/-- The payload `jwt.verify` decodes; `_id` is `undefined` when the payload has no such field. -/
structure Decoded where
  _id : Option String

/-- A call that `app.js` makes on a user document. -/
inductive Call where
  | createSession (u : User)
  | generateAccessAuthToken (u : User)

/-- The collaborators of `app.js` that live outside it. -/
structure Env where
  /-- The static `User.getJWTSecret()`; it takes no argument. -/
  getJWTSecret : Unit → String
  /-- The function `jwt.verify(token, secret, callback)`: the error or the decoded payload that
  the callback receives. -/
  jwtVerify : Option String → String → Except JwtError Decoded
  /-- The static `User.findByIdAndToken(_id, token)`. -/
  findByIdAndToken : Option String → Option String → Except JsValue (Option User)
  /-- The static `User.hasRefreshTokenExpired(expiresAt)`. -/
  hasRefreshTokenExpired : Nat → Bool
  /-- The static `User.findByCredentials(email, password)`. -/
  findByCredentials : Option JsValue → Option JsValue → Except JsValue User
  /-- The method `user.createSession()`: the user document after the call and the refresh
  token. -/
  createSession : User → Except JsValue (User × String)
  /-- The method `user.generateAccessAuthToken()`. -/
  generateAccessAuthToken : User → Except JsValue String

/-- What a middleware or handler leaves behind. -/
structure Outcome where
  req : Req
  res : Res
  nextCalled : Bool
  calls : List Call

/-! ## `authenticate` (lines 36-52) -/

/-- The second argument `authenticate` gives to `jwt.verify`. -/
def authenticateKey (env : Env) (_req : Req) : String :=
  env.getJWTSecret ()

/-- The middleware `authenticate`. -/
def authenticate (env : Env) (req : Req) (res : Res) : Outcome :=
  let token := req.header "x-access-token"
  match env.jwtVerify token (authenticateKey env req) with
  | .error err =>
    { req := req, res := (res.status 401).send (Body.json err.toJs), nextCalled := false,
      calls := [] }
  | .ok decoded =>
    { req := { req with user_id := decoded._id }, res := res, nextCalled := true, calls := [] }

/-! ## `verifySession` (lines 54-104) -/

/-- The loop `user.sessions.forEach(...)` of `verifySession`, started from
`isSessionValid = false`; the result is the final value of `isSessionValid`. -/
def isSessionValid (env : Env) (refreshToken : Option String) (sessions : List Session) : Bool :=
  sessions.foldl (fun valid session =>
    if some session.token = refreshToken then
      if env.hasRefreshTokenExpired session.expiresAt = false then true else valid
    else valid) false

/-- The callback given to `.then` in `verifySession`: the request as the callback leaves it, and
either `next()` called (`.ok ()`) or the value it rejects with. -/
def verifySessionThen (env : Env) (req : Req) (refreshToken : Option String) :
    Option User → Req × Except JsValue Unit
  | none =>
    (req, .error (errorObject
      "User not found. Make sure that the refresh token and user id are correct"))
  | some user =>
    let req1 : Req :=
      { req with user_id := some user._id, userObject := some user, refreshToken := refreshToken }
    if isSessionValid env refreshToken user.sessions then
      (req1, .ok ())
    else
      (req1, .error (errorObject "Refresh token has expired or the session is invalid"))

/-- The promise `User.findByIdAndToken(_id, refreshToken)` of `verifySession`, both arguments
read from the request headers. -/
def verifySessionLookup (env : Env) (req : Req) : Except JsValue (Option User) :=
  let refreshToken := req.header "x-refresh-token"
  let _id := req.header "_id"
  env.findByIdAndToken _id refreshToken

/-- The middleware `verifySession`. -/
def verifySession (env : Env) (req : Req) (res : Res) : Outcome :=
  let refreshToken := req.header "x-refresh-token"
  match verifySessionLookup env req with
  | .error e =>
    { req := req, res := (res.status 401).send (Body.json e), nextCalled := false, calls := [] }
  | .ok user =>
    match verifySessionThen env req refreshToken user with
    | (req1, .ok ()) => { req := req1, res := res, nextCalled := true, calls := [] }
    | (req1, .error e) =>
      { req := req1, res := (res.status 401).send (Body.json e), nextCalled := false, calls := [] }

/-! ## `POST /users/login` (lines 333-360) -/

/-- The handler of `POST /users/login`. Every rejection in the promise chain reaches the one
`.catch`; `calls` lists the methods called on the user, in order. -/
def loginHandler (env : Env) (req : Req) (res : Res) : Outcome :=
  let email := req.body.lookup "email"
  let password := req.body.lookup "password"
  match env.findByCredentials email password with
  | .error e =>
    { req := req, res := (res.status 400).send (Body.json e), nextCalled := false, calls := [] }
  | .ok user =>
    match env.createSession user with
    | .error e =>
      { req := req, res := (res.status 400).send (Body.json e), nextCalled := false,
        calls := [Call.createSession user] }
    | .ok (user1, refreshToken) =>
      match env.generateAccessAuthToken user1 with
      | .error e =>
        { req := req, res := (res.status 400).send (Body.json e), nextCalled := false,
          calls := [Call.createSession user, Call.generateAccessAuthToken user1] }
      | .ok accessToken =>
        { req := req,
          res := ((res.header "x-refresh-token" refreshToken).header
            "x-access-token" accessToken).send (Body.userDoc user1),
          nextCalled := false,
          calls := [Call.createSession user, Call.generateAccessAuthToken user1] }

/-! ## Task routes (lines 181-193 and 265-297) -/

/-- The handler of `GET /lists/:listId/tasks`: `Task.find({ _listId: req.params.listId })`. -/
def getTasks (store : Store) (req : Req) (res : Res) : Res :=
  res.send (Body.taskDocs
    (store.tasks.filter (fun t => decide (some t._listId = req.params.lookup "listId"))))

/-- The handler of `DELETE /lists/:listId/tasks/:taskId`: the list is looked up by id and owner
first, and only when it is found is the task removed. -/
def deleteTask (store : Store) (req : Req) (res : Res) : Res × Store :=
  let canDeleteTasks :=
    (store.lists.find? (fun l =>
      decide (some l._id = req.params.lookup "listId") && decide (some l._userId = req.user_id))).isSome
  if canDeleteTasks then
    let isTarget : TaskDoc → Bool := fun t =>
      decide (some t._id = req.params.lookup "taskId") &&
        decide (some t._listId = req.params.lookup "listId")
    (res.send (Body.taskDoc (store.tasks.find? isTarget)),
      { store with tasks := store.tasks.eraseP isTarget })
  else
    (res.sendStatus404, store)

/-! ## Route registration -/

/-- The two guards of `app.js`. -/
inductive Guard where
  | authenticate
  | verifySession
  deriving DecidableEq, Repr

/-- One `app.METHOD(path, [guard,] handler)` registration: the guard placed before the handler, if
any, and the properties among `user_id`, `userObject`, `refreshToken` that the handler body reads
from `req`. -/
structure Route where
  method : String
  path : String
  guard : Option Guard
  reads : List String
  deriving DecidableEq, Repr

/-- The routes of `app.js`, in the order they are registered. -/
def routes : List Route :=
  [ { method := "GET", path := "/lists", guard := some Guard.authenticate, reads := ["user_id"] },
    { method := "POST", path := "/lists", guard := some Guard.authenticate, reads := ["user_id"] },
    { method := "PATCH", path := "/lists/:id", guard := some Guard.authenticate,
      reads := ["user_id"] },
    { method := "DELETE", path := "/lists/:id", guard := some Guard.authenticate,
      reads := ["user_id"] },
    { method := "GET", path := "/lists/:listId/tasks", guard := some Guard.authenticate,
      reads := [] },
    { method := "POST", path := "/lists/:listId/tasks", guard := some Guard.authenticate,
      reads := ["user_id"] },
    { method := "PATCH", path := "/lists/:listId/tasks/:taskId",
      guard := some Guard.authenticate, reads := ["user_id"] },
    { method := "DELETE", path := "/lists/:listId/tasks/:taskId",
      guard := some Guard.authenticate, reads := ["user_id"] },
    { method := "POST", path := "/users", guard := none, reads := [] },
    { method := "POST", path := "/users/login", guard := none, reads := [] },
    { method := "GET", path := "/users/me/access-token", guard := some Guard.verifySession,
      reads := ["userObject"] } ]

/-- Running a guard. -/
def Guard.run (env : Env) : Guard → Req → Res → Outcome
  | Guard.authenticate => TaskManager.authenticate env
  | Guard.verifySession => TaskManager.verifySession env

/-- What serving a request on a route leaves behind, and whether the handler body ran. -/
structure Served where
  req : Req
  res : Res
  handlerRan : Bool

/-- Serving a request on a route: the guard, when there is one, runs first, and the handler runs
with the request and response the guard leaves, and only when the guard called `next()`. -/
def Route.serve (env : Env) (route : Route) (handler : Req → Res → Res) (req : Req) (res : Res) :
    Served :=
  match route.guard with
  | none => { req := req, res := handler req res, handlerRan := true }
  | some g =>
    let o := g.run env req res
    if o.nextCalled then
      { req := o.req, res := handler o.req o.res, handlerRan := true }
    else
      { req := o.req, res := o.res, handlerRan := false }

/-! ## The signing key as the specification words it -/

/-- The key of section 4.2 of the specification, in its words: the per-user salt concatenated
with the global secret. -/
def specSigningKey (perUserSalt globalSecret : String) : String :=
  perUserSalt ++ globalSecret

/-! ## Sample data -/

/-- A user with one expired session (`r1`) and one live session (`r2`) at time `300`. -/
def alice : User :=
  { _id := "u1", sessions := [{ token := "r1", expiresAt := 100 }, { token := "r2", expiresAt := 500 }] }

/-- A sample environment: the clock stands at `300`, `alice` is the only user, the access tokens
`tokA` and `tokB` are the valid ones, and a user id that is no document id makes the lookup
reject. -/
def sampleEnv : Env :=
  { getJWTSecret := fun _ => "jwtSecret"
    jwtVerify := fun token key =>
      if key = "jwtSecret" then
        match token with
        | some "tokA" => .ok { _id := some "u1" }
        | some "tokB" => .ok { _id := some "u2" }
        | some _ => .error { name := "JsonWebTokenError", message := "jwt malformed" }
        | none => .error { name := "JsonWebTokenError", message := "jwt must be provided" }
      else .error { name := "JsonWebTokenError", message := "invalid signature" }
    findByIdAndToken := fun _id token =>
      match _id with
      | some "u1" =>
        if alice.sessions.any (fun s => decide (some s.token = token)) then .ok (some alice)
        else .ok none
      | some "not-an-id" => .error (JsValue.str "CastError")
      | _ => .ok none
    hasRefreshTokenExpired := fun expiresAt => decide (expiresAt ≤ 300)
    findByCredentials := fun email password =>
      match email, password with
      | some (JsValue.str "a@b.com"), some (JsValue.str "secret1") => .ok alice
      | _, _ => .error JsValue.undefined
    createSession := fun u =>
      .ok ({ u with sessions := u.sessions ++ [{ token := "r3", expiresAt := 900 }] }, "r3")
    generateAccessAuthToken := fun u => if u._id = "u1" then .ok "tokA" else .ok "tokB" }

/-- The sample environment with a user lookup that rejects with the number 500. -/
def numericLookupEnv : Env :=
  { sampleEnv with findByIdAndToken := fun _ _ => .error (JsValue.num 500) }

/-- The sample environment with a credential check that rejects with the number 404. -/
def numericLoginEnv : Env :=
  { sampleEnv with findByCredentials := fun _ _ => .error (JsValue.num 404) }

/-- A request with the given headers and nothing else. -/
def requestWith (headers : List (String × String)) : Req :=
  { headers := headers, body := [], params := [], user_id := none, userObject := none,
    refreshToken := none }

/-- A fresh response: status 200, no header, nothing sent. -/
def freshRes : Res :=
  { statusCode := 200, headers := [], body := none }

/-- A refresh request presenting the live session of `alice`. -/
def liveRequest : Req :=
  requestWith [("x-refresh-token", "r2"), ("_id", "u1")]

/-- A refresh request presenting the expired session of `alice`. -/
def expiredRequest : Req :=
  requestWith [("x-refresh-token", "r1"), ("_id", "u1")]

/-- A refresh request whose user id is no document id. -/
def malformedIdRequest : Req :=
  requestWith [("x-refresh-token", "r2"), ("_id", "not-an-id")]

/-- A request carrying the access token of user `u1`. -/
def tokARequest : Req :=
  requestWith [("x-access-token", "tokA")]

/-- A request carrying the access token of user `u2`. -/
def tokBRequest : Req :=
  requestWith [("x-access-token", "tokB")]

/-- A login request with the right email and a wrong password. -/
def wrongPasswordRequest : Req :=
  { requestWith [] with
    body := [("email", JsValue.str "a@b.com"), ("password", JsValue.str "wrong")] }

/-- A store where user `u1` owns the list `L1`, which holds the task `T1`. -/
def sampleStore : Store :=
  { lists := [{ _id := "L1", title := "groceries", _userId := "u1" }]
    tasks := [{ _id := "T1", title := "buy milk", _listId := "L1" }] }

/-- The request `GET /lists/L1/tasks` carrying the access token of user `u2`. -/
def otherUserTasksRequest : Req :=
  { requestWith [("x-access-token", "tokB")] with params := [("listId", "L1")] }

/-- The request `DELETE /lists/L1/tasks/T1` carrying the access token of user `u2`. -/
def otherUserDeleteRequest : Req :=
  { requestWith [("x-access-token", "tokB")] with
    params := [("listId", "L1"), ("taskId", "T1")] }

/-! ## Lemmas on the guards -/

theorem send_json_of_not_number (res : Res) (v : JsValue) (h : v.isNumber = false) :
    res.send (Body.json v) = { res with body := some (Body.json v) } := by
  cases v <;> simp_all [Res.send, JsValue.isNumber]

theorem send_isSome (res : Res) (b : Body) : (res.send b).body.isSome = true := by
  unfold Res.send
  split <;> rfl

theorem foldl_sessions_true (env : Env) (refreshToken : Option String) (sessions : List Session) :
    sessions.foldl (fun valid session =>
      if some session.token = refreshToken then
        if env.hasRefreshTokenExpired session.expiresAt = false then true else valid
      else valid) true = true := by
  induction sessions with
  | nil => rfl
  | cons s rest ih =>
    simp only [List.foldl_cons]
    split_ifs <;> exact ih

theorem isSessionValid_cons (env : Env) (refreshToken : Option String) (s : Session)
    (rest : List Session) :
    isSessionValid env refreshToken (s :: rest) =
      ((decide (some s.token = refreshToken) && !env.hasRefreshTokenExpired s.expiresAt)
        || isSessionValid env refreshToken rest) := by
  unfold isSessionValid
  simp only [List.foldl_cons]
  by_cases h1 : some s.token = refreshToken
  · cases h2 : env.hasRefreshTokenExpired s.expiresAt
    · rw [if_pos h1, if_pos rfl, foldl_sessions_true]
      simp [h1]
    · rw [if_pos h1, if_neg (by simp)]
      simp
  · rw [if_neg h1]
    simp [h1]

theorem isSessionValid_iff (env : Env) (refreshToken : Option String) (sessions : List Session) :
    isSessionValid env refreshToken sessions = true ↔
      ∃ s ∈ sessions,
        some s.token = refreshToken ∧ env.hasRefreshTokenExpired s.expiresAt = false := by
  induction sessions with
  | nil => simp [isSessionValid]
  | cons s rest ih =>
    rw [isSessionValid_cons]
    simp [ih]

theorem verifySession_of_rejected (env : Env) (req : Req) (res : Res) (e : JsValue)
    (h : verifySessionLookup env req = .error e) :
    verifySession env req res =
      { req := req, res := (res.status 401).send (Body.json e), nextCalled := false,
        calls := [] } := by
  simp [verifySession, h]

theorem verifySession_of_null (env : Env) (req : Req) (res : Res)
    (h : verifySessionLookup env req = .ok none) :
    verifySession env req res =
      { req := req,
        res := (res.status 401).send (Body.json (errorObject
          "User not found. Make sure that the refresh token and user id are correct")),
        nextCalled := false, calls := [] } := by
  simp [verifySession, h, verifySessionThen]

theorem verifySession_of_live (env : Env) (req : Req) (res : Res) (user : User)
    (h : verifySessionLookup env req = .ok (some user))
    (hv : isSessionValid env (req.header "x-refresh-token") user.sessions = true) :
    verifySession env req res =
      { req := { req with user_id := some user._id, userObject := some user,
                          refreshToken := req.header "x-refresh-token" },
        res := res, nextCalled := true, calls := [] } := by
  simp [verifySession, h, verifySessionThen, hv]

theorem verifySession_of_not_live (env : Env) (req : Req) (res : Res) (user : User)
    (h : verifySessionLookup env req = .ok (some user))
    (hv : isSessionValid env (req.header "x-refresh-token") user.sessions = false) :
    verifySession env req res =
      { req := { req with user_id := some user._id, userObject := some user,
                          refreshToken := req.header "x-refresh-token" },
        res := (res.status 401).send (Body.json (errorObject
          "Refresh token has expired or the session is invalid")),
        nextCalled := false, calls := [] } := by
  simp [verifySession, h, verifySessionThen, hv]

/-- Whatever the lookup gives, `verifySession` either calls `next()` and leaves the response
alone, or answers `res.status(401).send(e)` and does not call `next()`. -/
theorem verifySession_next_or_401 (env : Env) (req : Req) (res : Res) :
    ((verifySession env req res).nextCalled = true ∧ (verifySession env req res).res = res) ∨
    ((verifySession env req res).nextCalled = false ∧
      ∃ e, (verifySession env req res).res = (res.status 401).send (Body.json e)) := by
  cases h : verifySessionLookup env req with
  | error e => right; rw [verifySession_of_rejected env req res e h]; exact ⟨rfl, e, rfl⟩
  | ok found =>
    cases found with
    | none =>
      right; rw [verifySession_of_null env req res h]
      exact ⟨rfl, errorObject
        "User not found. Make sure that the refresh token and user id are correct", rfl⟩
    | some user =>
      cases hv : isSessionValid env (req.header "x-refresh-token") user.sessions with
      | true => left; rw [verifySession_of_live env req res user h hv]; exact ⟨rfl, rfl⟩
      | false =>
        right; rw [verifySession_of_not_live env req res user h hv]
        exact ⟨rfl, errorObject "Refresh token has expired or the session is invalid", rfl⟩

/-- The guard `authenticate` either calls `next()` and leaves the response alone, or answers
`res.status(401).send(e)` and does not call `next()`. -/
theorem authenticate_next_or_401 (env : Env) (req : Req) (res : Res) :
    ((authenticate env req res).nextCalled = true ∧ (authenticate env req res).res = res) ∨
    ((authenticate env req res).nextCalled = false ∧
      ∃ e, (authenticate env req res).res = (res.status 401).send (Body.json e)) := by
  cases h : env.jwtVerify (req.header "x-access-token") (authenticateKey env req) with
  | error e => right; simp only [authenticate, h]; exact ⟨trivial, e.toJs, rfl⟩
  | ok decoded => left; simp [authenticate, h]

/-- Each guard either calls `next()` and leaves the response alone, or answers
`res.status(401).send(e)` and does not call `next()`. -/
theorem guard_next_or_401 (env : Env) (g : Guard) (req : Req) (res : Res) :
    ((g.run env req res).nextCalled = true ∧ (g.run env req res).res = res) ∨
    ((g.run env req res).nextCalled = false ∧
      ∃ e, (g.run env req res).res = (res.status 401).send (Body.json e)) := by
  cases g with
  | authenticate => exact authenticate_next_or_401 env req res
  | verifySession => exact verifySession_next_or_401 env req res

/-! ## The claims -/

/-- C1: `verifySession` calls `next()` if and only if the lookup resolves to a user whose
session list has an entry with the presented refresh token that is not expired; whenever the
lookup resolves and `next()` is not called (null, no token-equal entry, every token-equal entry
expired) it sends a response with status 401; a lookup that rejects never reaches `next()` and is
answered, with status 401 when the rejection value is no number; in particular a refresh token
that is in no session entry of the looked-up user is rejected with 401, whether the lookup found a
user or not. -/
theorem verifySession_next_iff (env : Env) (req : Req) (res : Res) :
    ((verifySession env req res).nextCalled = true ↔
      ∃ user, verifySessionLookup env req = .ok (some user) ∧
        ∃ s ∈ user.sessions, some s.token = req.header "x-refresh-token" ∧
          env.hasRefreshTokenExpired s.expiresAt = false) ∧
    (∀ found, verifySessionLookup env req = .ok found →
      (verifySession env req res).nextCalled = true ∨
        ((verifySession env req res).nextCalled = false ∧
          (verifySession env req res).res.statusCode = 401 ∧
          (verifySession env req res).res.body.isSome = true)) ∧
    (∀ e, verifySessionLookup env req = .error e →
      (verifySession env req res).nextCalled = false ∧
        (verifySession env req res).res.body.isSome = true ∧
        (e.isNumber = false → (verifySession env req res).res.statusCode = 401)) ∧
    (∀ found, verifySessionLookup env req = .ok found →
      (∀ user, found = some user →
        ∀ s ∈ user.sessions, some s.token ≠ req.header "x-refresh-token") →
      (verifySession env req res).nextCalled = false ∧
        (verifySession env req res).res.statusCode = 401 ∧
        (verifySession env req res).res.body.isSome = true) := by
  have key : (verifySession env req res).nextCalled = true ↔
      ∃ user, verifySessionLookup env req = .ok (some user) ∧
        ∃ s ∈ user.sessions, some s.token = req.header "x-refresh-token" ∧
          env.hasRefreshTokenExpired s.expiresAt = false := by
    cases h : verifySessionLookup env req with
    | error e => rw [verifySession_of_rejected env req res e h]; simp
    | ok found =>
      cases found with
      | none => rw [verifySession_of_null env req res h]; simp
      | some user =>
        cases hv : isSessionValid env (req.header "x-refresh-token") user.sessions with
        | true =>
          rw [verifySession_of_live env req res user h hv]
          have := (isSessionValid_iff env _ _).mp hv
          simpa using this
        | false =>
          rw [verifySession_of_not_live env req res user h hv]
          have hn : ¬ ∃ s ∈ user.sessions, some s.token = req.header "x-refresh-token" ∧
              env.hasRefreshTokenExpired s.expiresAt = false := by
            intro hex
            have := (isSessionValid_iff env _ _).mpr hex
            rw [hv] at this
            exact Bool.noConfusion this
          simpa using hn
  have rejected : ∀ found, verifySessionLookup env req = .ok found →
      (verifySession env req res).nextCalled = false →
      (verifySession env req res).res.statusCode = 401 ∧
        (verifySession env req res).res.body.isSome = true := by
    intro found hl hf
    cases found with
    | none => rw [verifySession_of_null env req res hl]; exact ⟨rfl, rfl⟩
    | some user =>
      cases hv : isSessionValid env (req.header "x-refresh-token") user.sessions with
      | true =>
        rw [verifySession_of_live env req res user hl hv] at hf
        exact Bool.noConfusion hf
      | false => rw [verifySession_of_not_live env req res user hl hv]; exact ⟨rfl, rfl⟩
  refine ⟨key, ?_, ?_, ?_⟩
  · intro found hl
    cases hn : (verifySession env req res).nextCalled with
    | true => exact Or.inl rfl
    | false => exact Or.inr ⟨rfl, rejected found hl hn⟩
  · intro e hl
    rw [verifySession_of_rejected env req res e hl]
    refine ⟨rfl, send_isSome _ _, fun hnum => ?_⟩
    show ((res.status 401).send (Body.json e)).statusCode = 401
    rw [send_json_of_not_number _ e hnum]
    rfl
  · intro found hl hno
    have hf : (verifySession env req res).nextCalled = false := by
      cases hn : (verifySession env req res).nextCalled with
      | false => rfl
      | true =>
        obtain ⟨user, hu, s, hs, htok, _⟩ := key.mp hn
        rw [hl] at hu
        have hfound : found = some user := by
          injection hu
        exact absurd htok (hno user hfound s hs)
    exact ⟨hf, rejected found hl hf⟩

/-- Witness of C1: the request presenting the live session of `alice` reaches `next()`, and the
request presenting a refresh token that is in no session of hers is rejected with 401. -/
theorem verifySession_next_iff_witness :
    (verifySession sampleEnv liveRequest freshRes).nextCalled = true ∧
    ((verifySession sampleEnv (requestWith [("x-refresh-token", "r9"), ("_id", "u1")])
        freshRes).nextCalled = false ∧
      (verifySession sampleEnv (requestWith [("x-refresh-token", "r9"), ("_id", "u1")])
        freshRes).res.statusCode = 401 ∧
      (verifySession sampleEnv (requestWith [("x-refresh-token", "r9"), ("_id", "u1")])
        freshRes).res.body.isSome = true) :=
  ⟨(verifySession_next_iff sampleEnv liveRequest freshRes).1.mpr
      ⟨alice,
        by simp [verifySessionLookup, sampleEnv, liveRequest, requestWith, Req.header,
          List.lookup, alice],
        { token := "r2", expiresAt := 500 },
        by simp [alice],
        by simp [liveRequest, requestWith, Req.header, List.lookup],
        by simp [sampleEnv]⟩,
    (verifySession_next_iff sampleEnv (requestWith [("x-refresh-token", "r9"), ("_id", "u1")])
      freshRes).2.2.2 none
      (by simp [verifySessionLookup, sampleEnv, requestWith, Req.header, List.lookup, alice])
      (by simp)⟩

/-- C2: `authenticate` does exactly one of two things, decided by what `jwt.verify` reports for
the `x-access-token` header value: on an error it sends the error object with status 401, does
not call `next()` and leaves the request as it was; on a decoded payload it sets `req.user_id` to
`decoded._id`, calls `next()` and leaves the response as it was. -/
theorem authenticate_error_or_next (env : Env) (req : Req) (res : Res) :
    match env.jwtVerify (req.header "x-access-token") (env.getJWTSecret ()) with
    | .error err =>
      (authenticate env req res).nextCalled = false ∧
      (authenticate env req res).req = req ∧
      (authenticate env req res).res.statusCode = 401 ∧
      (authenticate env req res).res.body = some (Body.json err.toJs)
    | .ok decoded =>
      (authenticate env req res).nextCalled = true ∧
      (authenticate env req res).req = { req with user_id := decoded._id } ∧
      (authenticate env req res).res = res := by
  cases h : env.jwtVerify (req.header "x-access-token") (env.getJWTSecret ()) with
  | error e => simp [authenticate, authenticateKey, h, Res.send, Res.status, JwtError.toJs]
  | ok decoded => simp [authenticate, authenticateKey, h]

/-- C3, as stated, fails: the access tokens of two different users, `u1` and `u2`, are verified
under one and the same key, although the keys the specification describes differ for two
different salts. -/
theorem authenticateKey_counterexample :
    (authenticate sampleEnv tokARequest freshRes).req.user_id = some "u1" ∧
    (authenticate sampleEnv tokBRequest freshRes).req.user_id = some "u2" ∧
    authenticateKey sampleEnv tokARequest = authenticateKey sampleEnv tokBRequest ∧
    specSigningKey "saltOfU1" "globalSecret" ≠ specSigningKey "saltOfU2" "globalSecret" := by
  refine ⟨?_, ?_, rfl, ?_⟩
  · simp [authenticate, authenticateKey, sampleEnv, tokARequest, requestWith, Req.header,
      List.lookup]
  · simp [authenticate, authenticateKey, sampleEnv, tokBRequest, requestWith, Req.header,
      List.lookup]
  · simp [specSigningKey]

/-- C3, amended: the key `authenticate` passes to `jwt.verify` is the value of
`User.getJWTSecret()`, which is called without argument; it is the same for any two requests, and
what `authenticate` does is settled by what `jwt.verify` reports under that one key: an
environment that differs only in what `jwt.verify` reports under other keys gives the same
outcome. -/
theorem authenticateKey_same_for_all (env : Env) (req1 req2 : Req) (res : Res) :
    authenticateKey env req1 = env.getJWTSecret () ∧
    authenticateKey env req1 = authenticateKey env req2 ∧
    ∀ jwtVerify2 : Option String → String → Except JwtError Decoded,
      (∀ token, jwtVerify2 token (env.getJWTSecret ()) =
        env.jwtVerify token (env.getJWTSecret ())) →
      authenticate { env with jwtVerify := jwtVerify2 } req1 res = authenticate env req1 res := by
  refine ⟨rfl, rfl, ?_⟩
  intro jwtVerify2 h
  simp [authenticate, authenticateKey, h]

/-- Witness of C3, amended: making `jwt.verify` accept every token under the per-user keys
`u1jwtSecret` and `u2jwtSecret` changes nothing for the token of `u2`. -/
theorem authenticateKey_same_for_all_witness :
    authenticate
      { sampleEnv with
        jwtVerify := fun token key =>
          if key = "u1jwtSecret" ∨ key = "u2jwtSecret" then .ok { _id := some "u1" }
          else sampleEnv.jwtVerify token key }
      tokBRequest freshRes = authenticate sampleEnv tokBRequest freshRes :=
  (authenticateKey_same_for_all sampleEnv tokBRequest tokARequest freshRes).2.2 _
    (by intro token; simp [sampleEnv])

/-- C4, as stated, fails: when `User.findByIdAndToken` rejects with a value that is no
`{error: <string>}` object, `verifySession` does not call `next()` and sends that value; and when
it rejects with the number 500, the response has status 500 and the status message as body. -/
theorem verifySession_body_counterexample :
    ((verifySession sampleEnv malformedIdRequest freshRes).nextCalled = false ∧
      (verifySession sampleEnv malformedIdRequest freshRes).res.body =
        some (Body.json (JsValue.str "CastError")) ∧
      (JsValue.str "CastError").isErrorObject = false ∧
      ¬ ∃ msg, (verifySession sampleEnv malformedIdRequest freshRes).res.body =
        some (Body.json (errorObject msg))) ∧
    ((verifySession numericLookupEnv liveRequest freshRes).nextCalled = false ∧
      (verifySession numericLookupEnv liveRequest freshRes).res.statusCode = 500 ∧
      (verifySession numericLookupEnv liveRequest freshRes).res.body =
        some (Body.statusMessage 500)) := by
  have h : verifySessionLookup sampleEnv malformedIdRequest =
      .error (JsValue.str "CastError") := by
    simp [verifySessionLookup, sampleEnv, malformedIdRequest, requestWith, Req.header,
      List.lookup]
  have hn : verifySessionLookup numericLookupEnv liveRequest = .error (JsValue.num 500) := rfl
  rw [verifySession_of_rejected sampleEnv malformedIdRequest freshRes _ h,
    verifySession_of_rejected numericLookupEnv liveRequest freshRes _ hn]
  refine ⟨⟨rfl, rfl, rfl, ?_⟩, rfl, rfl, rfl⟩
  rintro ⟨msg, hmsg⟩
  simp [Res.send, Res.status, errorObject] at hmsg

/-- C4, amended: whenever `verifySession` does not call `next()`, the response is the `User not
found` error object with status 401 when the lookup resolves to null, the `Refresh token has
expired` error object with status 401 when the lookup resolves to a user, and
`res.status(401).send(e)` when the lookup rejects with `e`: status 401 with `e` itself as the
body whenever `e` is no number. -/
theorem verifySession_rejection_body (env : Env) (req : Req) (res : Res)
    (h : (verifySession env req res).nextCalled = false) :
    match verifySessionLookup env req with
    | .error e =>
      (verifySession env req res).res = (res.status 401).send (Body.json e) ∧
      (e.isNumber = false →
        (verifySession env req res).res.statusCode = 401 ∧
        (verifySession env req res).res.body = some (Body.json e))
    | .ok none =>
      (verifySession env req res).res.statusCode = 401 ∧
      (verifySession env req res).res.body = some (Body.json (errorObject
        "User not found. Make sure that the refresh token and user id are correct"))
    | .ok (some _) =>
      (verifySession env req res).res.statusCode = 401 ∧
      (verifySession env req res).res.body = some (Body.json
        (errorObject "Refresh token has expired or the session is invalid")) := by
  cases hl : verifySessionLookup env req with
  | error e =>
    rw [verifySession_of_rejected env req res e hl]
    refine ⟨rfl, fun hnum => ?_⟩
    show ((res.status 401).send (Body.json e)).statusCode = 401 ∧
      ((res.status 401).send (Body.json e)).body = some (Body.json e)
    rw [send_json_of_not_number _ e hnum]
    exact ⟨rfl, rfl⟩
  | ok found =>
    cases found with
    | none => rw [verifySession_of_null env req res hl]; exact ⟨rfl, rfl⟩
    | some user =>
      cases hv : isSessionValid env (req.header "x-refresh-token") user.sessions with
      | true =>
        rw [verifySession_of_live env req res user hl hv] at h
        exact Bool.noConfusion h
      | false => rw [verifySession_of_not_live env req res user hl hv]; exact ⟨rfl, rfl⟩

/-- Witness of C4, amended: the request whose lookup rejects with the string `CastError` is
answered with status 401 and that string as body. -/
theorem verifySession_rejection_body_witness :
    (verifySession sampleEnv malformedIdRequest freshRes).nextCalled = false ∧
    (verifySession sampleEnv malformedIdRequest freshRes).res.statusCode = 401 ∧
    (verifySession sampleEnv malformedIdRequest freshRes).res.body =
      some (Body.json (JsValue.str "CastError")) := by
  have hl : verifySessionLookup sampleEnv malformedIdRequest =
      .error (JsValue.str "CastError") := by
    simp [verifySessionLookup, sampleEnv, malformedIdRequest, requestWith, Req.header,
      List.lookup]
  have h : (verifySession sampleEnv malformedIdRequest freshRes).nextCalled = false := by
    rw [verifySession_of_rejected sampleEnv malformedIdRequest freshRes _ hl]
  have hb := verifySession_rejection_body sampleEnv malformedIdRequest freshRes h
  simp only [hl] at hb
  exact ⟨h, hb.2 rfl⟩

/-- C5: when the lookup resolves to a user and every session entry of that user with the
presented refresh token is expired, `verifySession` sends status 401 with the body
`{error: 'Refresh token has expired or the session is invalid'}`; a request whose lookup resolves
to null gets the body `{error: 'User not found. ...'}`, which is a different body. -/
theorem verifySession_expired_body (env : Env) (req : Req) (res : Res) (user : User)
    (hl : verifySessionLookup env req = .ok (some user))
    (hexp : ∀ s ∈ user.sessions, some s.token = req.header "x-refresh-token" →
      env.hasRefreshTokenExpired s.expiresAt = true) :
    (verifySession env req res).nextCalled = false ∧
    (verifySession env req res).res.statusCode = 401 ∧
    (verifySession env req res).res.body = some (Body.json
      (errorObject "Refresh token has expired or the session is invalid")) ∧
    ∀ req2 res2, verifySessionLookup env req2 = .ok none →
      (verifySession env req2 res2).res.body = some (Body.json (errorObject
        "User not found. Make sure that the refresh token and user id are correct")) ∧
      (verifySession env req2 res2).res.body ≠ (verifySession env req res).res.body := by
  have hv : isSessionValid env (req.header "x-refresh-token") user.sessions = false := by
    cases hb : isSessionValid env (req.header "x-refresh-token") user.sessions with
    | false => rfl
    | true =>
      obtain ⟨s, hs, htok, hlive⟩ := (isSessionValid_iff env _ _).mp hb
      rw [hexp s hs htok] at hlive
      exact Bool.noConfusion hlive
  rw [verifySession_of_not_live env req res user hl hv]
  refine ⟨rfl, rfl, rfl, ?_⟩
  intro req2 res2 h2
  rw [verifySession_of_null env req2 res2 h2]
  refine ⟨rfl, ?_⟩
  simp [Res.send, Res.status, errorObject]

/-- Witness of C5: the request presenting the expired session of `alice`. -/
theorem verifySession_expired_body_witness :
    (verifySession sampleEnv expiredRequest freshRes).res.body = some (Body.json
      (errorObject "Refresh token has expired or the session is invalid")) :=
  (verifySession_expired_body sampleEnv expiredRequest freshRes alice
    (by simp [verifySessionLookup, sampleEnv, expiredRequest, requestWith, Req.header,
      List.lookup, alice])
    (by simp [sampleEnv, expiredRequest, requestWith, Req.header, List.lookup, alice])).2.2.1

/-- C6: whenever `verifySession` calls `next()`, the request then holds the `_id` of the user the
lookup returned in `user_id`, that user in `userObject`, and the `x-refresh-token` header value in
`refreshToken`. -/
theorem verifySession_context_on_next (env : Env) (req : Req) (res : Res)
    (h : (verifySession env req res).nextCalled = true) :
    ∃ user, verifySessionLookup env req = .ok (some user) ∧
      (verifySession env req res).req.user_id = some user._id ∧
      (verifySession env req res).req.userObject = some user ∧
      (verifySession env req res).req.refreshToken = req.header "x-refresh-token" := by
  cases hl : verifySessionLookup env req with
  | error e =>
    rw [verifySession_of_rejected env req res e hl] at h
    exact Bool.noConfusion h
  | ok found =>
    cases found with
    | none =>
      rw [verifySession_of_null env req res hl] at h
      exact Bool.noConfusion h
    | some user =>
      cases hv : isSessionValid env (req.header "x-refresh-token") user.sessions with
      | false =>
        rw [verifySession_of_not_live env req res user hl hv] at h
        exact Bool.noConfusion h
      | true =>
        rw [verifySession_of_live env req res user hl hv]
        exact ⟨user, rfl, rfl, rfl, rfl⟩

/-- Witness of C6: the request presenting the live session of `alice`. -/
theorem verifySession_context_on_next_witness :
    ∃ user, verifySessionLookup sampleEnv liveRequest = .ok (some user) ∧
      (verifySession sampleEnv liveRequest freshRes).req.user_id = some user._id ∧
      (verifySession sampleEnv liveRequest freshRes).req.userObject = some user ∧
      (verifySession sampleEnv liveRequest freshRes).req.refreshToken = some "r2" :=
  verifySession_context_on_next sampleEnv liveRequest freshRes
    (by simp [verifySession, verifySessionLookup, verifySessionThen, isSessionValid, sampleEnv,
      liveRequest, requestWith, Req.header, List.lookup, alice])

/-- C7, as stated, fails: when `User.findByCredentials` rejects with the number 404, the login
handler answers with status 404, not 400. -/
theorem login_status_counterexample :
    numericLoginEnv.findByCredentials (wrongPasswordRequest.body.lookup "email")
      (wrongPasswordRequest.body.lookup "password") = .error (JsValue.num 404) ∧
    (loginHandler numericLoginEnv wrongPasswordRequest freshRes).res.statusCode = 404 ∧
    (loginHandler numericLoginEnv wrongPasswordRequest freshRes).res.statusCode ≠ 400 ∧
    (loginHandler numericLoginEnv wrongPasswordRequest freshRes).res.body =
      some (Body.statusMessage 404) := by
  refine ⟨rfl, rfl, ?_, rfl⟩
  show (404 : Int) ≠ 400
  decide

/-- C7, amended: when `User.findByCredentials(email, password)` rejects with `e`, the login
handler calls neither `createSession` nor `generateAccessAuthToken` on any user, leaves the
response headers as they were, and answers `res.status(400).send(e)`: status 400 with `e` as the
body whenever `e` is no number. -/
theorem login_rejected (env : Env) (req : Req) (res : Res) (e : JsValue)
    (h : env.findByCredentials (req.body.lookup "email") (req.body.lookup "password") =
      .error e) :
    (loginHandler env req res).calls = [] ∧
    (loginHandler env req res).res.headers = res.headers ∧
    (loginHandler env req res).res.headers.lookup "x-refresh-token" =
      res.headers.lookup "x-refresh-token" ∧
    (loginHandler env req res).res.headers.lookup "x-access-token" =
      res.headers.lookup "x-access-token" ∧
    (loginHandler env req res).res = (res.status 400).send (Body.json e) ∧
    (e.isNumber = false →
      (loginHandler env req res).res.statusCode = 400 ∧
      (loginHandler env req res).res.body = some (Body.json e)) := by
  have hres : (loginHandler env req res).res = (res.status 400).send (Body.json e) := by
    simp [loginHandler, h]
  have hheaders : ((res.status 400).send (Body.json e)).headers = res.headers := by
    unfold Res.send
    split <;> rfl
  refine ⟨by simp [loginHandler, h], ?_, ?_, ?_, hres, fun hnum => ?_⟩
  · rw [hres, hheaders]
  · rw [hres, hheaders]
  · rw [hres, hheaders]
  · rw [hres, send_json_of_not_number _ e hnum]
    exact ⟨rfl, rfl⟩

/-- Witness of C7, amended: a login with a wrong password, which the sample credential check
rejects with `undefined`. -/
theorem login_rejected_witness :
    (loginHandler sampleEnv wrongPasswordRequest freshRes).calls = [] ∧
    (loginHandler sampleEnv wrongPasswordRequest freshRes).res.headers = [] ∧
    (loginHandler sampleEnv wrongPasswordRequest freshRes).res.statusCode = 400 ∧
    (loginHandler sampleEnv wrongPasswordRequest freshRes).res.body =
      some (Body.json JsValue.undefined) :=
  have h := login_rejected sampleEnv wrongPasswordRequest freshRes JsValue.undefined
    (by simp [sampleEnv, wrongPasswordRequest, requestWith, List.lookup])
  ⟨h.1, h.2.1, h.2.2.2.2.2 rfl⟩

/-- C8, evaluated where it fails: user `u2`, authenticated by `authenticate`, asks for the tasks
of list `L1`, which user `u1` owns, and `GET /lists/:listId/tasks` sends the task of that list;
the sibling `DELETE /lists/:listId/tasks/:taskId` answers the same user 404 and leaves the store
as it was. -/
theorem getTasks_other_users_list :
    (authenticate sampleEnv otherUserTasksRequest freshRes).nextCalled = true ∧
    (authenticate sampleEnv otherUserTasksRequest freshRes).req.user_id = some "u2" ∧
    sampleStore.lists = [{ _id := "L1", title := "groceries", _userId := "u1" }] ∧
    (getTasks sampleStore (authenticate sampleEnv otherUserTasksRequest freshRes).req
      freshRes).body =
      some (Body.taskDocs [{ _id := "T1", title := "buy milk", _listId := "L1" }]) ∧
    (deleteTask sampleStore (authenticate sampleEnv otherUserDeleteRequest freshRes).req
      freshRes).1.statusCode = 404 ∧
    (deleteTask sampleStore (authenticate sampleEnv otherUserDeleteRequest freshRes).req
      freshRes).2 = sampleStore := by
  refine ⟨?_, ?_, rfl, ?_, ?_, ?_⟩ <;>
    simp [authenticate, authenticateKey, sampleEnv, otherUserTasksRequest,
      otherUserDeleteRequest, requestWith, Req.header, List.lookup, getTasks, deleteTask,
      sampleStore, Res.send, Res.status, Res.sendStatus404, freshRes]

/-- C9: every registered route whose handler reads `req.user_id`, `req.userObject` or
`req.refreshToken` has a guard before its handler: `authenticate` on the eight routes under
`/lists`, `verifySession` on `GET /users/me/access-token`; and on every guarded route the handler
body runs exactly when the guard called `next()`, in which case the guard sent nothing, and does
not run when the guard answered 401. -/
theorem guard_before_handler (env : Env) (handler : Req → Res → Res) (req : Req) (res : Res) :
    (∀ route ∈ routes, route.reads ≠ [] →
      route.guard = some Guard.authenticate ∨ route.guard = some Guard.verifySession) ∧
    (routes.filter (fun r => "/lists".toList.isPrefixOf r.path.toList)).length = 8 ∧
    (∀ route ∈ routes, "/lists".toList.isPrefixOf route.path.toList = true →
      route.guard = some Guard.authenticate) ∧
    (∀ route ∈ routes, route.path = "/users/me/access-token" →
      route.guard = some Guard.verifySession) ∧
    (∀ route ∈ routes, ∀ g, route.guard = some g →
      ((route.serve env handler req res).handlerRan = true ↔
        (g.run env req res).nextCalled = true) ∧
      ((route.serve env handler req res).handlerRan = true →
        (g.run env req res).res = res ∧
        (route.serve env handler req res).res = handler (g.run env req res).req res) ∧
      ((route.serve env handler req res).handlerRan = false →
        (∃ e, (g.run env req res).res = (res.status 401).send (Body.json e)) ∧
        (route.serve env handler req res).res = (g.run env req res).res)) := by
  refine ⟨by decide, by decide, by decide, by decide, ?_⟩
  intro route _ g hg
  cases hn : (g.run env req res).nextCalled with
  | true =>
    have hres : (g.run env req res).res = res := by
      rcases guard_next_or_401 env g req res with ⟨_, hr⟩ | ⟨hf, _⟩
      · exact hr
      · rw [hn] at hf; exact Bool.noConfusion hf
    simp [Route.serve, hg, hn, hres]
  | false =>
    have hres : ∃ e, (g.run env req res).res = (res.status 401).send (Body.json e) := by
      rcases guard_next_or_401 env g req res with ⟨ht, _⟩ | ⟨_, he⟩
      · rw [hn] at ht; exact Bool.noConfusion ht
      · exact he
    simp only [Route.serve, hg, hn]
    exact ⟨by simp, by simp, fun _ => ⟨hres, rfl⟩⟩

/-- C10: `verifySession` writes the request before it checks the session: when the lookup
resolves to a user, `user_id`, `userObject` and `refreshToken` are set to the user's `_id`, the
user and the presented refresh token, also when no matching non-expired session exists and the
request is rejected with 401; when the lookup resolves to null or rejects, the request is left as
it was. -/
theorem verifySession_context_writes (env : Env) (req : Req) (res : Res) :
    match verifySessionLookup env req with
    | .ok (some user) =>
      (verifySession env req res).req =
        { req with user_id := some user._id, userObject := some user,
                   refreshToken := req.header "x-refresh-token" } ∧
      ((¬ ∃ s ∈ user.sessions, some s.token = req.header "x-refresh-token" ∧
          env.hasRefreshTokenExpired s.expiresAt = false) →
        (verifySession env req res).nextCalled = false ∧
        (verifySession env req res).res.statusCode = 401 ∧
        (verifySession env req res).res.body.isSome = true)
    | .ok none =>
      (verifySession env req res).req = req ∧ (verifySession env req res).nextCalled = false
    | .error _ =>
      (verifySession env req res).req = req ∧ (verifySession env req res).nextCalled = false := by
  cases hl : verifySessionLookup env req with
  | error e => rw [verifySession_of_rejected env req res e hl]; exact ⟨rfl, rfl⟩
  | ok found =>
    cases found with
    | none => rw [verifySession_of_null env req res hl]; exact ⟨rfl, rfl⟩
    | some user =>
      cases hv : isSessionValid env (req.header "x-refresh-token") user.sessions with
      | true =>
        rw [verifySession_of_live env req res user hl hv]
        refine ⟨rfl, fun hno => ?_⟩
        exact absurd ((isSessionValid_iff env _ _).mp hv) hno
      | false =>
        rw [verifySession_of_not_live env req res user hl hv]
        exact ⟨rfl, fun _ => ⟨rfl, rfl, rfl⟩⟩

/-- Witness of C10: the request presenting the expired session of `alice` is rejected with 401,
and it leaves `verifySession` with the three properties written. -/
theorem verifySession_context_writes_witness :
    (verifySession sampleEnv expiredRequest freshRes).req =
      { expiredRequest with user_id := some "u1", userObject := some alice,
                            refreshToken := some "r1" } ∧
    (verifySession sampleEnv expiredRequest freshRes).nextCalled = false ∧
    (verifySession sampleEnv expiredRequest freshRes).res.statusCode = 401 ∧
    (verifySession sampleEnv expiredRequest freshRes).res.body.isSome = true := by
  have hl : verifySessionLookup sampleEnv expiredRequest = .ok (some alice) := by
    simp [verifySessionLookup, sampleEnv, expiredRequest, requestWith, Req.header, List.lookup,
      alice]
  have h := verifySession_context_writes sampleEnv expiredRequest freshRes
  simp only [hl] at h
  exact ⟨h.1, h.2 (by simp [sampleEnv, expiredRequest, requestWith, Req.header, List.lookup,
    alice])⟩

end TaskManager
